import Mathlib

/-!
Verification development for the HelixAgent Python SDK
(`src/sdk/python/superagent` and `src/pkg/sdk/python/superagent_verifier`).

The Python modules are shallowly embedded: JSON-decoded values become the
inductive `Json`; Python dictionaries become association lists; functions
that may raise return `Option` (with `none` for an uncaught raise) or an
explicit error record; the streaming generator becomes a function from the
list of complete lines to the list of emitted chunks plus a terminal event.
-/

/-- A JSON-decoded Python value: `None`, `bool`, `int`, `str`, `list`, `dict`.
(The SDK's error and record payloads in the claims use only these shapes;
numbers are modelled as integers.) -/
inductive Json where
  | null : Json
  | bool (b : Bool) : Json
  | num (n : Int) : Json
  | str (s : String) : Json
  | arr (xs : List Json) : Json
  | obj (kvs : List (String × Json)) : Json

/-- Python `dict.get(k)`: the value stored under the first matching key,
or `none` when the key is absent. -/
def jget (kvs : List (String × Json)) (k : String) : Option Json :=
  (kvs.find? fun kv => kv.fst == k).map Prod.snd

/-- Python `dict.get(k, d)`: lookup with a default. -/
def jgetD (kvs : List (String × Json)) (k : String) (d : Json) : Json :=
  (jget kvs k).getD d

/-- Python truthiness of a JSON-decoded value: `None`, `False`, `0`, `""`,
`[]` and the empty dict are falsy, everything else is truthy. -/
def Json.truthy : Json → Bool
  | Json.null => false
  | Json.bool b => b
  | Json.num n => n != 0
  | Json.str s => !s.isEmpty
  | Json.arr xs => !xs.isEmpty
  | Json.obj kvs => !kvs.isEmpty

mutual

/-- Python `repr` of a JSON-decoded value (used by `str` on containers). -/
def pyRepr : Json → String
  | Json.null => "None"
  | Json.bool true => "True"
  | Json.bool false => "False"
  | Json.num n => toString n
  | Json.str s => "\x27" ++ s ++ "\x27"
  | Json.arr xs => "[" ++ pyReprItems xs ++ "]"
  | Json.obj kvs => "\x7b" ++ pyReprPairs kvs ++ "\x7d"

/-- Comma-separated `repr`s of list items. -/
def pyReprItems : List Json → String
  | [] => ""
  | [x] => pyRepr x
  | x :: y :: xs => pyRepr x ++ ", " ++ pyReprItems (y :: xs)

/-- Comma-separated `repr`s of dict entries. -/
def pyReprPairs : List (String × Json) → String
  | [] => ""
  | [kv] => "\x27" ++ kv.fst ++ "\x27: " ++ pyRepr kv.snd
  | kv :: y :: xs => "\x27" ++ kv.fst ++ "\x27: " ++ pyRepr kv.snd ++ ", " ++ pyReprPairs (y :: xs)

end

/-- Python `str` of a JSON-decoded value: a string is returned verbatim,
anything else falls back to `repr`-style printing. -/
def pyStr : Json → String
  | Json.str s => s
  | j => pyRepr j

/-- The exception taxonomy of `superagent/exceptions.py`, flattened into one
enumerated kind (the subclasses carry no behaviour beyond their identity). -/
inductive ErrKind where
  | authentication
  | rateLimit
  | validation
  | apiError
  | connection
  | timeout
deriving DecidableEq

/-- One raised `SuperAgentError`, as the union of the fields of all
subclasses: `message`, optional `status_code`, optional raw `response`
payload, and the `RateLimitError`-only `retry_after`. -/
structure ErrorRecord where
  kind : ErrKind
  message : Json
  status_code : Option Int := none
  response : Option (List (String × Json)) := none
  retry_after : Option Json := none

/-- Message extraction of `raise_for_status` (exceptions.py lines 68-72):
`error_message = response_data.get("error", \x7b\x7d)`; a dict yields its
`message` field (default `"Unknown error"`); otherwise `str(error_message)`
when truthy, else `"Unknown error"`. -/
def extractMessage (response_data : List (String × Json)) : Json :=
  match jgetD response_data "error" (Json.obj []) with
  | Json.obj fields => jgetD fields "message" (Json.str "Unknown error")
  | e => if e.truthy then Json.str (pyStr e) else Json.str "Unknown error"

/-- The classifier `raise_for_status` (exceptions.py lines 66-99). `some r`
means the call raises exception `r`; `none` means it returns normally. -/
def raise_for_status (status_code : Int) (response_data : List (String × Json)) : Option ErrorRecord :=
  let message := extractMessage response_data
  if status_code = 401 then
    some { kind := ErrKind.authentication, message := message,
           status_code := some status_code, response := some response_data }
  else if status_code = 429 then
    some { kind := ErrKind.rateLimit, message := message,
           status_code := some status_code, response := some response_data,
           retry_after := jget response_data "retry_after" }
  else if 400 ≤ status_code ∧ status_code < 500 then
    some { kind := ErrKind.validation, message := message,
           status_code := some status_code, response := some response_data }
  else if 500 ≤ status_code then
    some { kind := ErrKind.apiError, message := message,
           status_code := some status_code, response := some response_data }
  else
    none

/-- The error-kind precedence as the spec states it (spec section 4.1),
written from the spec's words for comparison against `raise_for_status`:
401 is Authentication, 429 is RateLimit, the rest of 4xx is Validation,
and 5xx is APIError. Meaningful for inputs with `400 ≤ s`. -/
def specClassifyKind (s : Int) : ErrKind :=
  if s = 401 then ErrKind.authentication
  else if s = 429 then ErrKind.rateLimit
  else if s < 500 then ErrKind.validation
  else ErrKind.apiError

/-- The message-extraction rule as amended from the spec's words of
section 4.1: a nested `error.message` wins; a non-mapping `error` value is
stringified only when truthy; everything else yields `"Unknown error"`. -/
def spec_message (p : List (String × Json)) : Json :=
  match jget p "error" with
  | some (Json.obj fields) => jgetD fields "message" (Json.str "Unknown error")
  | some e => if e.truthy then Json.str (pyStr e) else Json.str "Unknown error"
  | none => Json.str "Unknown error"

/-- A chat message record (types.py `ChatMessage`). The Python dataclass is
dynamically typed, so every field holds the raw JSON-decoded value; the
constructor defaults are `name = None` and `tool_calls = None`. -/
structure ChatMessage where
  role : Json
  content : Json
  name : Json := Json.null
  tool_calls : Json := Json.null

/-- Serialization `ChatMessage.to_dict` (types.py lines 18-25): always emits
`role` and `content`; `name` and `tool_calls` are appended only when truthy. -/
def ChatMessage.to_dict (m : ChatMessage) : List (String × Json) :=
  let d := [("role", m.role), ("content", m.content)]
  let d := if m.name.truthy then d ++ [("name", m.name)] else d
  if m.tool_calls.truthy then d ++ [("tool_calls", m.tool_calls)] else d

/-- Deserialization `ChatMessage.from_dict` (types.py lines 27-35); total,
since `dict.get` never raises. -/
def ChatMessage.from_dict (data : List (String × Json)) : ChatMessage :=
  { role := jgetD data "role" (Json.str "")
  , content := jgetD data "content" (Json.str "")
  , name := jgetD data "name" Json.null
  , tool_calls := jgetD data "tool_calls" Json.null }

/-- Token usage record (types.py `Usage`). -/
structure Usage where
  prompt_tokens : Json := Json.num 0
  completion_tokens : Json := Json.num 0
  total_tokens : Json := Json.num 0

/-- Deserialization `Usage.from_dict` (types.py lines 45-52); total. -/
def Usage.from_dict (data : List (String × Json)) : Usage :=
  { prompt_tokens := jgetD data "prompt_tokens" (Json.num 0)
  , completion_tokens := jgetD data "completion_tokens" (Json.num 0)
  , total_tokens := jgetD data "total_tokens" (Json.num 0) }

/-- A non-streaming completion choice (types.py `ChatCompletionChoice`). -/
structure ChatCompletionChoice where
  index : Json
  message : ChatMessage
  finish_reason : Json := Json.null

/-- Deserialization `ChatCompletionChoice.from_dict` (types.py lines 62-69):
`ChatMessage.from_dict(data.get("message", \x7b\x7d))` raises
(`AttributeError`, modelled as `none`) when a present `message` value is not
a dict. -/
def ChatCompletionChoice.from_dict (data : List (String × Json)) : Option ChatCompletionChoice :=
  match jgetD data "message" (Json.obj []) with
  | Json.obj m => some
      { index := jgetD data "index" (Json.num 0)
      , message := ChatMessage.from_dict m
      , finish_reason := jgetD data "finish_reason" Json.null }
  | _ => none

/-- Python iteration `for c in v` over a JSON-decoded value: a list yields
its items, a dict its keys, a string its one-character substrings; other
values raise `TypeError` (modelled as `none`). -/
def pyIter : Json → Option (List Json)
  | Json.arr xs => some xs
  | Json.obj kvs => some (kvs.map fun kv => Json.str kv.fst)
  | Json.str s => some (s.toList.map fun c => Json.str (String.mk [c]))
  | _ => none

/-- The list comprehension of `ChatCompletionResponse.from_dict`:
`ChatCompletionChoice.from_dict(c)` for each element, raising when an
element is not a dict or its nested message is ill-shaped. -/
def decode_choices : List Json → Option (List ChatCompletionChoice)
  | [] => some []
  | c :: cs =>
    match c with
    | Json.obj f =>
      match ChatCompletionChoice.from_dict f, decode_choices cs with
      | some x, some xs => some (x :: xs)
      | _, _ => none
    | _ => none

/-- A non-streaming completion response (types.py `ChatCompletionResponse`). -/
structure ChatCompletionResponse where
  id : Json
  object : Json
  created : Json
  model : Json
  choices : List ChatCompletionChoice
  usage : Option Usage := none

/-- Deserialization `ChatCompletionResponse.from_dict` (types.py lines
82-92): iterates `data.get("choices", [])`, and builds `usage` with
`Usage.from_dict(data["usage"]) if data.get("usage") else None`. -/
def ChatCompletionResponse.from_dict (data : List (String × Json)) : Option ChatCompletionResponse :=
  match pyIter (jgetD data "choices" (Json.arr [])) with
  | none => none
  | some cs =>
    match decode_choices cs with
    | none => none
    | some choices =>
      let uv := jgetD data "usage" Json.null
      if uv.truthy then
        match uv with
        | Json.obj u => some
            { id := jgetD data "id" (Json.str "")
            , object := jgetD data "object" (Json.str "chat.completion")
            , created := jgetD data "created" (Json.num 0)
            , model := jgetD data "model" (Json.str "")
            , choices := choices
            , usage := some (Usage.from_dict u) }
        | _ => none
      else some
        { id := jgetD data "id" (Json.str "")
        , object := jgetD data "object" (Json.str "chat.completion")
        , created := jgetD data "created" (Json.num 0)
        , model := jgetD data "model" (Json.str "")
        , choices := choices
        , usage := none }

/-- A streaming delta fragment (types.py `StreamDelta`). -/
structure StreamDelta where
  role : Json := Json.null
  content : Json := Json.null

/-- Deserialization `StreamDelta.from_dict` (types.py lines 101-107); total. -/
def StreamDelta.from_dict (data : List (String × Json)) : StreamDelta :=
  { role := jgetD data "role" Json.null
  , content := jgetD data "content" Json.null }

/-- A streaming choice (types.py `StreamChoice`). -/
structure StreamChoice where
  index : Json
  delta : StreamDelta
  finish_reason : Json := Json.null

/-- Deserialization `StreamChoice.from_dict` (types.py lines 117-124): the
nested `StreamDelta.from_dict(data.get("delta", \x7b\x7d))` raises when a
present `delta` value is not a dict. -/
def StreamChoice.from_dict (data : List (String × Json)) : Option StreamChoice :=
  match jgetD data "delta" (Json.obj []) with
  | Json.obj dd => some
      { index := jgetD data "index" (Json.num 0)
      , delta := StreamDelta.from_dict dd
      , finish_reason := jgetD data "finish_reason" Json.null }
  | _ => none

/-- The list comprehension of `ChatCompletionChunk.from_dict`. -/
def decode_stream_choices : List Json → Option (List StreamChoice)
  | [] => some []
  | c :: cs =>
    match c with
    | Json.obj f =>
      match StreamChoice.from_dict f, decode_stream_choices cs with
      | some x, some xs => some (x :: xs)
      | _, _ => none
    | _ => none

/-- A streaming completion chunk (types.py `ChatCompletionChunk`). -/
structure ChatCompletionChunk where
  id : Json
  object : Json
  created : Json
  model : Json
  choices : List StreamChoice

/-- Deserialization `ChatCompletionChunk.from_dict` (types.py lines
137-145). -/
def ChatCompletionChunk.from_dict (data : List (String × Json)) : Option ChatCompletionChunk :=
  match pyIter (jgetD data "choices" (Json.arr [])) with
  | none => none
  | some cs =>
    match decode_stream_choices cs with
    | none => none
    | some choices => some
      { id := jgetD data "id" (Json.str "")
      , object := jgetD data "object" (Json.str "chat.completion.chunk")
      , created := jgetD data "created" (Json.num 0)
      , model := jgetD data "model" (Json.str "")
      , choices := choices }

/-- A model record (types.py `Model`). -/
structure Model where
  id : Json
  object : Json := Json.str "model"
  created : Json := Json.num 0
  owned_by : Json := Json.str ""

/-- Deserialization `Model.from_dict` (types.py lines 156-164); total. -/
def Model.from_dict (data : List (String × Json)) : Model :=
  { id := jgetD data "id" (Json.str "")
  , object := jgetD data "object" (Json.str "model")
  , created := jgetD data "created" (Json.num 0)
  , owned_by := jgetD data "owned_by" (Json.str "") }

/-- Shape restriction for `ChatCompletionChoice.from_dict`: a present
`message` field is a dict (as every wire payload of the record has it). -/
def messageShaped (d : List (String × Json)) : Prop :=
  ∀ v, jget d "message" = some v → ∃ f, v = Json.obj f

/-- Shape restriction for `StreamChoice.from_dict`: a present `delta` field
is a dict. -/
def deltaShaped (d : List (String × Json)) : Prop :=
  ∀ v, jget d "delta" = some v → ∃ f, v = Json.obj f

/-- Shape restriction for the elements of a response's `choices` list. -/
def choiceElemShaped (c : Json) : Prop :=
  ∃ f, c = Json.obj f ∧ messageShaped f

/-- Shape restriction for a response payload's `choices` field. -/
def choicesShaped (d : List (String × Json)) : Prop :=
  ∀ v, jget d "choices" = some v → ∃ cs, v = Json.arr cs ∧ ∀ c ∈ cs, choiceElemShaped c

/-- Shape restriction for the elements of a chunk's `choices` list. -/
def streamChoiceElemShaped (c : Json) : Prop :=
  ∃ f, c = Json.obj f ∧ deltaShaped f

/-- Shape restriction for a chunk payload's `choices` field. -/
def streamChoicesShaped (d : List (String × Json)) : Prop :=
  ∀ v, jget d "choices" = some v → ∃ cs, v = Json.arr cs ∧ ∀ c ∈ cs, streamChoiceElemShaped c

/-- Shape restriction for a response payload's `usage` field: when present
and truthy it is a dict. -/
def usageShaped (d : List (String × Json)) : Prop :=
  ∀ v, jget d "usage" = some v → v.truthy = true → ∃ u, v = Json.obj u

/-- Python `str.strip` whitespace set: space, tab, newline, carriage
return, vertical tab and form feed. -/
def pyWhitespace (c : Char) : Bool :=
  c == ' ' || c == '\t' || c == '\n' || c == '\r' || c == '\x0b' || c == '\x0c'

/-- Python `str.strip()`: drop leading and trailing whitespace. -/
def pyStrip (s : String) : String :=
  String.mk (((s.toList.dropWhile pyWhitespace).reverse.dropWhile pyWhitespace).reverse)

/-- Python `s.startswith(pre)`: the characters of `pre` head those of `s`. -/
def pyStartsWith (s pre : String) : Bool :=
  pre.toList.isPrefixOf s.toList

/-- Python `s[n:]`: drop the first `n` characters. -/
def pyDrop (s : String) (n : Nat) : String :=
  String.mk (s.toList.drop n)

/-- How one run of the streaming decoder ends. -/
inductive StreamEnd where
  | terminated : StreamEnd
  | exhausted : StreamEnd
  | raised : StreamEnd
deriving DecidableEq

/-- The per-frame decode `ChatCompletionChunk.from_dict(chunk_data)` of
client.py line 144: a parsed frame that is not a dict raises
(`AttributeError`, modelled as `raised`). -/
def chunk_from_json : Json → Option ChatCompletionChunk
  | Json.obj d => ChatCompletionChunk.from_dict d
  | _ => none

/-- The per-line loop of `ChatCompletions._stream_completion` (client.py
lines 132-146), over the sequence of complete lines split out of the
buffer. `parse` stands for `json.loads`, returning `none` where the real
parser raises `json.JSONDecodeError`. The result is the list of chunks the
generator yields, paired with how the run ends: `terminated` on the
`data: [DONE]` sentinel (the `return`), `exhausted` at end of input, and
`raised` when a decoded frame makes `ChatCompletionChunk.from_dict`
raise. -/
def stream_decode_lines (parse : String → Option Json) : List String → List ChatCompletionChunk × StreamEnd
  | [] => ([], StreamEnd.exhausted)
  | line :: rest =>
    let l := pyStrip line
    if l = "" then stream_decode_lines parse rest
    else if pyStartsWith l "data: " then
      let d := pyDrop l 6
      if d = "[DONE]" then ([], StreamEnd.terminated)
      else
        match parse d with
        | some j =>
          match chunk_from_json j with
          | some c =>
            let r := stream_decode_lines parse rest
            (c :: r.1, r.2)
          | none => ([], StreamEnd.raised)
        | none => stream_decode_lines parse rest
    else stream_decode_lines parse rest

/-- A concrete stand-in for `json.loads`, defined on the two example frames
of the spec's test properties (section 8) and failing elsewhere; used to
instantiate the decoder theorems on the spec's example line sequences. -/
def sample_parse : String → Option Json := fun s =>
  if s = "\x7b\"id\": \"1\"\x7d" then some (Json.obj [("id", Json.str "1")])
  else if s = "\x7b\"id\": \"2\"\x7d" then some (Json.obj [("id", Json.str "2")])
  else none

/-- The body-decoding step of `SuperAgent._request` (client.py lines
278-280): `json.loads(response_data) if response_data else \x7b\x7d`.
`parse` stands for `json.loads`; an empty body is never parsed and decodes
to the empty dict. -/
def decode_response_body (parse : String → Option Json) (body : String) : Option Json :=
  if body = "" then some (Json.obj []) else parse body

/-- A transport-level failure surfacing inside `SuperAgent._request` or
`ChatCompletions._stream_completion`: an `HTTPError` carrying a status and
(possibly JSON-decodable) body, or a `URLError` carrying only a reason.
`urllib` wraps every `OSError` of the connection attempt — including the
`socket.timeout` produced by an elapsed deadline — in `URLError`, so a
timeout arrives here with `isTimeout = true`. -/
inductive TransportFailure where
  | httpError (code : Int) (decodedBody : Option (List (String × Json))) (reason : String) : TransportFailure
  | urlError (isTimeout : Bool) (reason : String) : TransportFailure

/-- The handler `SuperAgent._handle_http_error` (client.py lines 287-294):
decode the error body as JSON, falling back to
`\x7b"error": error.reason\x7d`, then classify via `raise_for_status`. -/
def handle_http_error (code : Int) (decodedBody : Option (List (String × Json))) (reason : String) : Option ErrorRecord :=
  raise_for_status code (decodedBody.getD [("error", Json.str reason)])

/-- The `except` clauses of `SuperAgent._request` (client.py lines 282-285):
`HTTPError` goes through `_handle_http_error`; every `URLError` — timeout
included — is re-raised as `ConnectionError("Failed to connect to ...")`. -/
def superagent_request_error_map (url : String) : TransportFailure → Option ErrorRecord
  | TransportFailure.httpError code decodedBody reason => handle_http_error code decodedBody reason
  | TransportFailure.urlError _ reason => some
      { kind := ErrKind.connection
      , message := Json.str ("Failed to connect to " ++ url ++ ": " ++ reason) }

/-- A transport-level failure surfacing inside `VerifierClient._request`:
`requests.Timeout`, or any other `requests.RequestException`. -/
inductive VerifierFailure where
  | timedOut : VerifierFailure
  | requestFailed (msg : String) : VerifierFailure

/-- The `except` clauses of `VerifierClient._request`
(superagent_verifier/client.py lines 80-83): a timeout becomes
`APIError("Request timed out", status_code=408)`; any other request
exception becomes `APIError("Request failed: ...")`. -/
def verifier_request_error_map : VerifierFailure → ErrorRecord
  | VerifierFailure.timedOut =>
      { kind := ErrKind.apiError, message := Json.str "Request timed out",
        status_code := some 408 }
  | VerifierFailure.requestFailed m =>
      { kind := ErrKind.apiError, message := Json.str ("Request failed: " ++ m) }

/-- CLAIM C1: for every status `s ≥ 400` and payload `p`, `raise_for_status`
raises exactly one error whose kind follows the spec's precedence
(401 Authentication; 429 RateLimit with `retry_after` read from the
payload's top-level field; other 4xx Validation; 5xx APIError), and in every
branch the raw payload is attached as `response` and `s` as `status_code`. -/
theorem c1_raise_for_status_classification (s : Int) (p : List (String × Json))
    (hs : 400 ≤ s) :
    raise_for_status s p = some
      { kind := specClassifyKind s, message := extractMessage p,
        status_code := some s, response := some p,
        retry_after := if s = 429 then jget p "retry_after" else none } := by
  by_cases h1 : s = 401
  · subst h1
    simp [raise_for_status, specClassifyKind]
  · by_cases h2 : s = 429
    · subst h2
      simp [raise_for_status, specClassifyKind]
    · by_cases h3 : s < 500
      · simp [raise_for_status, specClassifyKind, h1, h2, h3, hs]
      · have h4 : 500 ≤ s := by omega
        simp [raise_for_status, specClassifyKind, h1, h2, h3, h4]

/-- Witness for C1 at the concrete input `s = 429`,
`p = [("retry_after", 30)]`. -/
theorem c1_raise_for_status_classification_witness :
    (400 : Int) ≤ 429 ∧
    raise_for_status 429 [("retry_after", Json.num 30)] = some
      { kind := specClassifyKind 429,
        message := extractMessage [("retry_after", Json.num 30)],
        status_code := some 429,
        response := some [("retry_after", Json.num 30)],
        retry_after := if (429 : Int) = 429 then
          jget [("retry_after", Json.num 30)] "retry_after" else none } :=
  ⟨by decide, c1_raise_for_status_classification 429 [("retry_after", Json.num 30)] (by decide)⟩

/-- CLAIM C10: for every status strictly below 400 and every payload,
`raise_for_status` matches no branch, raises nothing and returns `None`. -/
theorem c10_raise_for_status_success_noop (s : Int) (p : List (String × Json))
    (hs : s < 400) :
    raise_for_status s p = none := by
  have h1 : ¬s = 401 := by omega
  have h2 : ¬s = 429 := by omega
  have h3 : ¬(400 ≤ s ∧ s < 500) := by omega
  have h4 : ¬(500 ≤ s) := by omega
  simp [raise_for_status, h1, h2, h3, h4]

/-- Witness for C10 at the concrete input `s = 200`, `p = []`. -/
theorem c10_raise_for_status_success_noop_witness :
    (200 : Int) < 400 ∧ raise_for_status 200 [] = none :=
  ⟨by decide, c10_raise_for_status_success_noop 200 [] (by decide)⟩

/-- Helper: the message extracted by the code agrees with the amended
spec-side rule on every payload. -/
theorem extractMessage_eq_spec_message (p : List (String × Json)) :
    extractMessage p = spec_message p := by
  unfold extractMessage spec_message
  simp only [jgetD]
  cases h : jget p "error" with
  | none => rfl
  | some v => cases v <;> rfl

/-- Helper: for a status of at least 400 the classifier raises, and the
raised record's message is `extractMessage` of the payload. -/
theorem raise_for_status_message_ge400 (s : Int) (p : List (String × Json))
    (hs : 400 ≤ s) :
    (raise_for_status s p).map ErrorRecord.message = some (extractMessage p) := by
  by_cases h1 : s = 401
  · subst h1; simp [raise_for_status]
  · by_cases h2 : s = 429
    · subst h2; simp [raise_for_status]
    · by_cases h3 : s < 500
      · simp [raise_for_status, h1, h2, h3, hs]
      · have h4 : 500 ≤ s := by omega
        simp [raise_for_status, h1, h2, h3, h4]

/-- Helper: for a status of at least 400 the classifier always raises. -/
theorem raise_for_status_isSome_ge400 (s : Int) (p : List (String × Json))
    (hs : 400 ≤ s) :
    (raise_for_status s p).isSome = true := by
  have h := raise_for_status_message_ge400 s p hs
  cases hr : raise_for_status s p with
  | none => rw [hr] at h; cases h
  | some r => rfl

/-- Counterexample to CLAIM C5 as stated: the payload
`\x7b"error": ""\x7d` has a scalar (non-mapping) `error` field, yet the
raised message is the literal `"Unknown error"`, not the stringification
`""` of that value — Python only stringifies a truthy `error`. -/
theorem c5_falsy_scalar_error_counterexample :
    (raise_for_status 500 [("error", Json.str "")]).map ErrorRecord.message
      = some (Json.str "Unknown error") ∧
    (raise_for_status 500 [("error", Json.str "")]).map ErrorRecord.message
      ≠ some (Json.str "") := by
  refine ⟨rfl, ?_⟩
  intro h
  have h1 : Json.str "Unknown error" = Json.str "" := Option.some.inj h
  have h2 : "Unknown error" = "" := by injection h1
  exact absurd h2 (by decide)

/-- CLAIM C5 (amended): for every payload passed to classification with a
status of at least 400, the raised message follows the rule: a nested
`error.message` value wins; a non-mapping `error` value is stringified when
truthy; a falsy or absent `error` yields the literal `"Unknown error"`. -/
theorem c5_message_extraction_rule (s : Int) (p : List (String × Json))
    (hs : 400 ≤ s) :
    (raise_for_status s p).map ErrorRecord.message = some (spec_message p) := by
  rw [raise_for_status_message_ge400 s p hs, extractMessage_eq_spec_message]

/-- Witness for C5 (amended) at the spec's own example
`classify(500, \x7b"error": "boom"\x7d)`, whose message is `"boom"`. -/
theorem c5_message_extraction_rule_witness :
    (400 : Int) ≤ 500 ∧
    (raise_for_status 500 [("error", Json.str "boom")]).map ErrorRecord.message
      = some (spec_message [("error", Json.str "boom")]) ∧
    spec_message [("error", Json.str "boom")] = Json.str "boom" :=
  ⟨by decide, c5_message_extraction_rule 500 [("error", Json.str "boom")] (by decide), rfl⟩

/-- CLAIM C6: a 2xx response with an empty body decodes to the empty
mapping without invoking the JSON parser (even a parser failing on every
input never gets the chance to raise), and a non-empty body is handed to
the JSON parser. -/
theorem c6_empty_body_empty_mapping :
    (∀ parse, decode_response_body parse "" = some (Json.obj [])) ∧
    decode_response_body (fun _ => none) "" = some (Json.obj []) ∧
    (∀ parse body, body ≠ "" → decode_response_body parse body = parse body) := by
  refine ⟨fun parse => rfl, rfl, fun parse body h => ?_⟩
  simp [decode_response_body, h]

/-- Witness for C6 at the concrete non-empty body `"ok"`. -/
theorem c6_empty_body_empty_mapping_witness :
    "ok" ≠ "" ∧
    decode_response_body sample_parse "ok" = sample_parse "ok" :=
  ⟨by decide, c6_empty_body_empty_mapping.2.2 sample_parse "ok" (by decide)⟩

/-- CLAIM C9: a message record constructed with only a role and a content
(`name` and `tool_calls` left at their `None` defaults) serializes to a
mapping with exactly the keys `role` and `content`, carrying those values. -/
theorem c9_to_dict_minimal_message (role content : String) :
    ChatMessage.to_dict
        { role := Json.str role, content := Json.str content,
          name := Json.null, tool_calls := Json.null }
      = [("role", Json.str role), ("content", Json.str content)] := by
  simp [ChatMessage.to_dict, Json.truthy]

/-- Counterexample to CLAIM C3 as stated: an elapsed deadline (a timeout
`URLError` in the SuperAgent client, a `requests.Timeout` in the verifier
client) is mapped to a Connection record, respectively an APIError record
with status 408 — never to a Timeout record. -/
theorem c3_timeout_kind_counterexample :
    (superagent_request_error_map "http://localhost:8080/v1/chat/completions"
        (TransportFailure.urlError true "timed out")).map ErrorRecord.kind
      = some ErrKind.connection ∧
    ErrKind.connection ≠ ErrKind.timeout ∧
    (verifier_request_error_map VerifierFailure.timedOut).kind = ErrKind.apiError ∧
    (verifier_request_error_map VerifierFailure.timedOut).status_code = some 408 ∧
    ErrKind.apiError ≠ ErrKind.timeout :=
  ⟨rfl, by decide, rfl, rfl, by decide⟩

/-- CLAIM C3 (amended): every transport failure is converted rather than
propagated — a `URLError` (deadline elapsed or not) becomes a Connection
record in the SuperAgent client, an `HTTPError` with status at least 400 is
classified into a raised record, and the verifier client turns a timeout
into an APIError record with status 408 and any other request exception
into an APIError record; no branch produces a Timeout record. -/
theorem c3_transport_failure_mapping (url reason msg : String) (isT : Bool)
    (code : Int) (body : Option (List (String × Json))) (hc : 400 ≤ code) :
    (superagent_request_error_map url (TransportFailure.urlError isT reason)).map ErrorRecord.kind
      = some ErrKind.connection ∧
    (superagent_request_error_map url (TransportFailure.httpError code body reason)).isSome = true ∧
    ((verifier_request_error_map VerifierFailure.timedOut).kind = ErrKind.apiError ∧
     (verifier_request_error_map VerifierFailure.timedOut).status_code = some 408) ∧
    (verifier_request_error_map (VerifierFailure.requestFailed msg)).kind = ErrKind.apiError := by
  refine ⟨rfl, ?_, ⟨rfl, rfl⟩, rfl⟩
  exact raise_for_status_isSome_ge400 code _ hc

/-- Witness for C3 (amended) at the concrete inputs: a timed-out
`URLError`, an `HTTPError` with status 503, and a verifier timeout. -/
theorem c3_transport_failure_mapping_witness :
    (400 : Int) ≤ 503 ∧
    ((superagent_request_error_map "http://localhost:8080" (TransportFailure.urlError true "timed out")).map ErrorRecord.kind
      = some ErrKind.connection ∧
    (superagent_request_error_map "http://localhost:8080" (TransportFailure.httpError 503 none "Service Unavailable")).isSome = true ∧
    ((verifier_request_error_map VerifierFailure.timedOut).kind = ErrKind.apiError ∧
     (verifier_request_error_map VerifierFailure.timedOut).status_code = some 408) ∧
    (verifier_request_error_map (VerifierFailure.requestFailed "boom")).kind = ErrKind.apiError) :=
  ⟨by decide,
   c3_transport_failure_mapping "http://localhost:8080" "timed out" "boom" true 503 none (by decide)⟩

/-- Helper: the sentinel line `data: [DONE]` makes the decoder return at
once, with no chunk emitted, whatever lines follow. -/
theorem stream_done_head (parse : String → Option Json) (rest : List String) :
    stream_decode_lines parse ("data: [DONE]" :: rest) = ([], StreamEnd.terminated) := rfl

/-- CLAIM C2: once the decoder reads `data: [DONE]` it terminates: the
sentinel line yields the terminated event with nothing emitted, lines after
the sentinel never influence the output, and on the spec's example sequence
(frame id "1", the sentinel, frame id "2") exactly the one chunk with id
"1" is emitted before termination. -/
theorem c2_done_terminates :
    (∀ (parse : String → Option Json) (rest : List String),
        stream_decode_lines parse ("data: [DONE]" :: rest) = ([], StreamEnd.terminated)) ∧
    (∀ (parse : String → Option Json) (pre rest rest' : List String),
        stream_decode_lines parse (pre ++ "data: [DONE]" :: rest)
          = stream_decode_lines parse (pre ++ "data: [DONE]" :: rest')) ∧
    stream_decode_lines sample_parse
        ["data: \x7b\"id\": \"1\"\x7d", "data: [DONE]", "data: \x7b\"id\": \"2\"\x7d"]
      = ([{ id := Json.str "1", object := Json.str "chat.completion.chunk",
            created := Json.num 0, model := Json.str "", choices := [] }],
         StreamEnd.terminated) := by
  refine ⟨stream_done_head, ?_, rfl⟩
  intro parse pre rest rest'
  induction pre with
  | nil => rw [List.nil_append, List.nil_append, stream_done_head, stream_done_head]
  | cons l pre ih =>
    simp only [List.cons_append, stream_decode_lines]
    by_cases h1 : pyStrip l = ""
    · simp only [h1, if_pos rfl]
      exact ih
    · by_cases h2 : pyStartsWith (pyStrip l) "data: " = true
      · by_cases h3 : pyDrop (pyStrip l) 6 = "[DONE]"
        · simp [h1, h2, h3]
        · cases hp : parse (pyDrop (pyStrip l) 6) with
          | none => simp [h1, h2, h3, hp, ih]
          | some j =>
            cases hc : chunk_from_json j with
            | none => simp [h1, h2, h3, hp, hc]
            | some c => simp [h1, h2, h3, hp, hc, ih]
      · simp [h1, h2, ih]

/-- CLAIM C4: a `data: <json>` line whose payload fails to parse is
silently discarded — the decoder emits nothing for it, raises nothing, and
continues with the remaining lines; on the spec's example (a malformed
frame between two valid frames) exactly the two valid chunks are emitted,
in order, and the run ends normally. -/
theorem c4_malformed_frames_skipped :
    (∀ (parse : String → Option Json) (line : String) (rest : List String),
        pyStartsWith (pyStrip line) "data: " = true →
        pyDrop (pyStrip line) 6 ≠ "[DONE]" →
        parse (pyDrop (pyStrip line) 6) = none →
        stream_decode_lines parse (line :: rest) = stream_decode_lines parse rest) ∧
    stream_decode_lines sample_parse
        ["data: \x7b\"id\": \"1\"\x7d", "data: notjson", "data: \x7b\"id\": \"2\"\x7d"]
      = ([{ id := Json.str "1", object := Json.str "chat.completion.chunk",
            created := Json.num 0, model := Json.str "", choices := [] },
          { id := Json.str "2", object := Json.str "chat.completion.chunk",
            created := Json.num 0, model := Json.str "", choices := [] }],
         StreamEnd.exhausted) := by
  refine ⟨?_, rfl⟩
  intro parse line rest h1 h2 h3
  have hne : ¬ pyStrip line = "" := by
    intro h0
    rw [h0] at h1
    exact absurd h1 (by decide)
  simp [stream_decode_lines, hne, h1, h2, h3]

/-- Witness for C4 at the concrete line `data: nope`, whose payload the
sample parser rejects. -/
theorem c4_malformed_frames_skipped_witness :
    pyStartsWith (pyStrip "data: nope") "data: " = true ∧
    pyDrop (pyStrip "data: nope") 6 ≠ "[DONE]" ∧
    sample_parse (pyDrop (pyStrip "data: nope") 6) = none ∧
    stream_decode_lines sample_parse ["data: nope"] = stream_decode_lines sample_parse [] :=
  ⟨rfl, by decide, rfl,
   c4_malformed_frames_skipped.1 sample_parse "data: nope" [] rfl (by decide) rfl⟩

/-- CLAIM C7: a line that strips to the empty string is ignored, and a
non-blank line not prefixed with the literal `data: ` is ignored as
protocol noise — in both cases nothing is emitted and decoding continues on
the remaining lines exactly as if the line had not been present. -/
theorem c7_noise_lines_ignored :
    (∀ (parse : String → Option Json) (line : String) (rest : List String),
        pyStrip line = "" →
        stream_decode_lines parse (line :: rest) = stream_decode_lines parse rest) ∧
    (∀ (parse : String → Option Json) (line : String) (rest : List String),
        pyStrip line ≠ "" →
        pyStartsWith (pyStrip line) "data: " = false →
        stream_decode_lines parse (line :: rest) = stream_decode_lines parse rest) := by
  constructor
  · intro parse line rest h
    simp [stream_decode_lines, h]
  · intro parse line rest h1 h2
    simp [stream_decode_lines, h1, h2]

/-- Witness for C7 at the concrete lines `"   "` (blank after stripping)
and `": ping"` (protocol noise). -/
theorem c7_noise_lines_ignored_witness :
    pyStrip "   " = "" ∧
    stream_decode_lines sample_parse ["   "] = stream_decode_lines sample_parse [] ∧
    pyStrip ": ping" ≠ "" ∧
    pyStartsWith (pyStrip ": ping") "data: " = false ∧
    stream_decode_lines sample_parse [": ping"] = stream_decode_lines sample_parse [] :=
  ⟨rfl, c7_noise_lines_ignored.1 sample_parse "   " [] rfl,
   by decide, rfl,
   c7_noise_lines_ignored.2 sample_parse ": ping" [] (by decide) rfl⟩

/-- Helper: a choice payload whose present `message` field is a dict
deserializes without raising. -/
theorem choice_from_dict_isSome (d : List (String × Json)) (h : messageShaped d) :
    (ChatCompletionChoice.from_dict d).isSome = true := by
  unfold ChatCompletionChoice.from_dict
  cases hm : jget d "message" with
  | none => simp [jgetD, hm]
  | some v =>
    obtain ⟨f, rfl⟩ := h v hm
    simp [jgetD, hm]

/-- Helper: a list of dict-shaped choice payloads deserializes without
raising. -/
theorem decode_choices_isSome (cs : List Json) (h : ∀ c ∈ cs, choiceElemShaped c) :
    (decode_choices cs).isSome = true := by
  induction cs with
  | nil => rfl
  | cons c cs ih =>
    obtain ⟨f, rfl, hf⟩ := h c (by simp)
    have h1 := choice_from_dict_isSome f hf
    have h2 := ih (fun x hx => h x (by simp [hx]))
    rcases Option.isSome_iff_exists.mp h1 with ⟨x, hx⟩
    rcases Option.isSome_iff_exists.mp h2 with ⟨xs, hxs⟩
    simp [decode_choices, hx, hxs]

/-- Helper: a response payload with well-shaped `choices` and `usage`
fields deserializes without raising. -/
theorem response_from_dict_isSome (d : List (String × Json))
    (hc : choicesShaped d) (hu : usageShaped d) :
    (ChatCompletionResponse.from_dict d).isSome = true := by
  obtain ⟨cs, h1, hcs⟩ :
      ∃ cs, pyIter (jgetD d "choices" (Json.arr [])) = some cs ∧
        ∀ c ∈ cs, choiceElemShaped c := by
    cases hch : jget d "choices" with
    | none =>
      refine ⟨[], by simp [jgetD, hch, pyIter], ?_⟩
      intro c hcmem
      cases hcmem
    | some v =>
      obtain ⟨cs, rfl, hcs⟩ := hc v hch
      exact ⟨cs, by simp [jgetD, hch, pyIter], hcs⟩
  rcases Option.isSome_iff_exists.mp (decode_choices_isSome cs hcs) with ⟨choices, h3⟩
  unfold ChatCompletionResponse.from_dict
  simp only [h1, h3]
  cases hus : jget d "usage" with
  | none => simp [jgetD, hus, Json.truthy]
  | some uv =>
    cases ht : uv.truthy with
    | false => simp [jgetD, hus, ht]
    | true =>
      obtain ⟨u, rfl⟩ := hu uv hus ht
      simp [jgetD, hus, ht]

/-- Helper: a stream-choice payload whose present `delta` field is a dict
deserializes without raising. -/
theorem streamchoice_from_dict_isSome (d : List (String × Json)) (h : deltaShaped d) :
    (StreamChoice.from_dict d).isSome = true := by
  unfold StreamChoice.from_dict
  cases hm : jget d "delta" with
  | none => simp [jgetD, hm]
  | some v =>
    obtain ⟨f, rfl⟩ := h v hm
    simp [jgetD, hm]

/-- Helper: a list of dict-shaped stream-choice payloads deserializes
without raising. -/
theorem decode_stream_choices_isSome (cs : List Json)
    (h : ∀ c ∈ cs, streamChoiceElemShaped c) :
    (decode_stream_choices cs).isSome = true := by
  induction cs with
  | nil => rfl
  | cons c cs ih =>
    obtain ⟨f, rfl, hf⟩ := h c (by simp)
    have h1 := streamchoice_from_dict_isSome f hf
    have h2 := ih (fun x hx => h x (by simp [hx]))
    rcases Option.isSome_iff_exists.mp h1 with ⟨x, hx⟩
    rcases Option.isSome_iff_exists.mp h2 with ⟨xs, hxs⟩
    simp [decode_stream_choices, hx, hxs]

/-- Helper: a chunk payload with a well-shaped `choices` field deserializes
without raising. -/
theorem chunk_from_dict_isSome (d : List (String × Json))
    (hc : streamChoicesShaped d) :
    (ChatCompletionChunk.from_dict d).isSome = true := by
  obtain ⟨cs, h1, hcs⟩ :
      ∃ cs, pyIter (jgetD d "choices" (Json.arr [])) = some cs ∧
        ∀ c ∈ cs, streamChoiceElemShaped c := by
    cases hch : jget d "choices" with
    | none =>
      refine ⟨[], by simp [jgetD, hch, pyIter], ?_⟩
      intro c hcmem
      cases hcmem
    | some v =>
      obtain ⟨cs, rfl, hcs⟩ := hc v hch
      exact ⟨cs, by simp [jgetD, hch, pyIter], hcs⟩
  rcases Option.isSome_iff_exists.mp (decode_stream_choices_isSome cs hcs) with ⟨choices, h3⟩
  unfold ChatCompletionChunk.from_dict
  simp [h1, h3]

/-- CLAIM C8: every record's from-wire constructor tolerates partial
payloads — applied to the empty mapping it succeeds for every record type
and substitutes the documented default for each missing field, and it
succeeds on every payload whose present fields have the record's wire
shape (nested `message`/`delta` dicts, `choices` lists of dicts, a dict
`usage`), any subset of the fields being allowed to be missing. -/
theorem c8_from_dict_partial_payloads :
    ChatMessage.from_dict [] =
      { role := Json.str "", content := Json.str "", name := Json.null, tool_calls := Json.null } ∧
    Usage.from_dict [] =
      { prompt_tokens := Json.num 0, completion_tokens := Json.num 0, total_tokens := Json.num 0 } ∧
    StreamDelta.from_dict [] = { role := Json.null, content := Json.null } ∧
    Model.from_dict [] =
      { id := Json.str "", object := Json.str "model", created := Json.num 0, owned_by := Json.str "" } ∧
    ChatCompletionChoice.from_dict [] =
      some { index := Json.num 0, message := ChatMessage.from_dict [], finish_reason := Json.null } ∧
    StreamChoice.from_dict [] =
      some { index := Json.num 0, delta := StreamDelta.from_dict [], finish_reason := Json.null } ∧
    ChatCompletionResponse.from_dict [] =
      some { id := Json.str "", object := Json.str "chat.completion", created := Json.num 0,
             model := Json.str "", choices := [], usage := none } ∧
    ChatCompletionChunk.from_dict [] =
      some { id := Json.str "", object := Json.str "chat.completion.chunk", created := Json.num 0,
             model := Json.str "", choices := [] } ∧
    (∀ d, messageShaped d → (ChatCompletionChoice.from_dict d).isSome = true) ∧
    (∀ d, deltaShaped d → (StreamChoice.from_dict d).isSome = true) ∧
    (∀ d, choicesShaped d → usageShaped d → (ChatCompletionResponse.from_dict d).isSome = true) ∧
    (∀ d, streamChoicesShaped d → (ChatCompletionChunk.from_dict d).isSome = true) :=
  ⟨rfl, rfl, rfl, rfl, rfl, rfl, rfl, rfl,
   choice_from_dict_isSome, streamchoice_from_dict_isSome,
   response_from_dict_isSome, chunk_from_dict_isSome⟩

/-- Witness for C8 at concrete partial payloads: a choice payload missing
its `message`, and the empty mapping for the composite record types. -/
theorem c8_from_dict_partial_payloads_witness :
    messageShaped [("index", Json.num 2)] ∧
    (ChatCompletionChoice.from_dict [("index", Json.num 2)]).isSome = true ∧
    (StreamChoice.from_dict []).isSome = true ∧
    (ChatCompletionResponse.from_dict []).isSome = true ∧
    (ChatCompletionChunk.from_dict []).isSome = true := by
  have h := c8_from_dict_partial_payloads
  have hms : messageShaped [("index", Json.num 2)] := fun v hv => nomatch hv
  have hds : deltaShaped [] := fun v hv => nomatch hv
  have hcs : choicesShaped [] := fun v hv => nomatch hv
  have hscs : streamChoicesShaped [] := fun v hv => nomatch hv
  have hus : usageShaped [] := fun v hv => nomatch hv
  refine ⟨hms, ?_, ?_, ?_, ?_⟩
  · exact h.2.2.2.2.2.2.2.2.1 [("index", Json.num 2)] hms
  · exact h.2.2.2.2.2.2.2.2.2.1 [] hds
  · exact h.2.2.2.2.2.2.2.2.2.2.1 [] hcs hus
  · exact h.2.2.2.2.2.2.2.2.2.2.2 [] hscs
